import Mathlib

/-!
# Verification of the heatzy-rs client library

Shallow embedding of `src/models.rs` (the `DeviceMode` codec) and
`src/client.rs` (the `Client` API wrapper) of the heatzy-rs repository,
together with proofs of the specification's claims about them.

Conventions of the embedding:
* Rust `i32`/`i64` values are modelled as `Int`, with the `as i32`
  truncating cast made explicit (`toI32`).
* `serde_json::Value` is modelled by the inductive `Json`; a JSON number
  is either an integer (`Json.num`) or a number with no `i64` reading
  (`Json.numNonInt`, covering floats and out-of-`i64`-range values), which
  is all that `Value::as_i64`/`Value::as_str` distinguish.
* The HTTP transport is a parameter `Transport := Request → Except String
  HttpResponse`; each client method returns its result together with the
  list of requests it issued, so "zero network calls" is expressible.
* `str::to_lowercase` is modelled on the ASCII range (`toLowercase`),
  which is exhaustive for every string the codec accepts.
-/

namespace Heatzy

instance {ε α : Type} [DecidableEq ε] [DecidableEq α] : DecidableEq (Except ε α) := fun a b =>
  match a, b with
  | .ok x, .ok y => decidable_of_iff (x = y) (by simp)
  | .error x, .error y => decidable_of_iff (x = y) (by simp)
  | .ok _, .error _ => isFalse (by simp)
  | .error _, .ok _ => isFalse (by simp)

/-- Model of Rust `str::to_lowercase` on a single character (ASCII range):
`A`–`Z` maps to `a`–`z`, everything else is unchanged. -/
def lowerChar (c : Char) : Char :=
  if 65 ≤ c.toNat ∧ c.toNat ≤ 90 then Char.ofNat (c.toNat + 32) else c

/-- Model of Rust `str::to_lowercase` (ASCII range). -/
def toLowercase (s : String) : String :=
  ⟨s.data.map lowerChar⟩

/-- `src/error.rs`: the `HeatzyError` enum. The `Network` variant wraps the
underlying transport error's message. -/
inductive HeatzyError where
  | Network (msg : String)
  | Auth (msg : String)
  | NotFound (msg : String)
  | InvalidMode (msg : String)
  | NoToken
  | Api (msg : String)
deriving DecidableEq, Repr

/-- `src/models.rs`: the `DeviceMode` enum. -/
inductive DeviceMode where
  | Comfort         -- 0, "cft"
  | Eco             -- 1, "eco"
  | FrostProtection -- 2, "fro"
  | Stop            -- 3, "stop"
  | ComfortMinus1   -- 4, "cft1"
  | ComfortMinus2   -- 5, "cft2"
deriving DecidableEq, Repr

namespace DeviceMode

/-- `DeviceMode::from_int` (`src/models.rs` lines 60–70). The argument is
the Rust `i32` value, modelled as `Int`. -/
def from_int (value : Int) : Except HeatzyError DeviceMode :=
  match value with
  | 0 => .ok .Comfort
  | 1 => .ok .Eco
  | 2 => .ok .FrostProtection
  | 3 => .ok .Stop
  | 4 => .ok .ComfortMinus1
  | 5 => .ok .ComfortMinus2
  | _ => .error (.InvalidMode ("Invalid mode number: " ++ toString value))

/-- `DeviceMode::from_str_api` (`src/models.rs` lines 73–83). -/
def from_str_api (value : String) : Except HeatzyError DeviceMode :=
  match value with
  | "cft" => .ok .Comfort
  | "eco" => .ok .Eco
  | "fro" => .ok .FrostProtection
  | "stop" => .ok .Stop
  | "cft1" => .ok .ComfortMinus1
  | "cft2" => .ok .ComfortMinus2
  | _ => .error (.InvalidMode ("Invalid mode string: " ++ value))

/-- `DeviceMode::from_cli_str` (`src/models.rs` lines 86–96): matches on
`value.to_lowercase()`, but the error message embeds the original `value`. -/
def from_cli_str (value : String) : Except HeatzyError DeviceMode :=
  match toLowercase value with
  | "comfort" => .ok .Comfort
  | "eco" => .ok .Eco
  | "frost-protection" => .ok .FrostProtection
  | "frost" => .ok .FrostProtection
  | "stop" => .ok .Stop
  | "comfort-1" => .ok .ComfortMinus1
  | "comfort-minus-1" => .ok .ComfortMinus1
  | "comfort-2" => .ok .ComfortMinus2
  | "comfort-minus-2" => .ok .ComfortMinus2
  | _ => .error (.InvalidMode ("Invalid mode: " ++ value ++
      ". Valid modes are: comfort, eco, frost-protection, stop, comfort-1, comfort-2"))

/-- `DeviceMode::to_int` (`src/models.rs` lines 99–108). -/
def to_int : DeviceMode → Int
  | .Comfort => 0
  | .Eco => 1
  | .FrostProtection => 2
  | .Stop => 3
  | .ComfortMinus1 => 4
  | .ComfortMinus2 => 5

/-- `DeviceMode::to_str_api` (`src/models.rs` lines 111–120). -/
def to_str_api : DeviceMode → String
  | .Comfort => "cft"
  | .Eco => "eco"
  | .FrostProtection => "fro"
  | .Stop => "stop"
  | .ComfortMinus1 => "cft1"
  | .ComfortMinus2 => "cft2"

/-- `DeviceMode::to_cli_str` (`src/models.rs` lines 123–132). -/
def to_cli_str : DeviceMode → String
  | .Comfort => "comfort"
  | .Eco => "eco"
  | .FrostProtection => "frost-protection"
  | .Stop => "stop"
  | .ComfortMinus1 => "comfort-1"
  | .ComfortMinus2 => "comfort-2"

end DeviceMode

/-- Model of `serde_json::Value` as far as the client inspects it.
A JSON number is either an integer with an `i64` reading (`num`) or a
number without one (`numNonInt`: a float, or an integer outside the `i64`
range), which is the only distinction `as_i64` makes. -/
inductive Json where
  | num (n : Int)
  | numNonInt
  | str (s : String)
  | bool (b : Bool)
  | null
  | arr (elems : List Json)
  | obj (fields : List (String × Json))

namespace Json

/-- `serde_json::Value::as_i64`: the integer reading, when in `i64` range. -/
def as_i64 : Json → Option Int
  | .num n => if -(2 ^ 63) ≤ n ∧ n < 2 ^ 63 then some n else none
  | _ => none

/-- `serde_json::Value::as_str`. -/
def as_str : Json → Option String
  | .str s => some s
  | _ => none

/-- `serde_json::Value::as_bool`. -/
def as_bool : Json → Option Bool
  | .bool b => some b
  | _ => none

/-- Field lookup in a JSON object (first occurrence of the key). -/
def getField (j : Json) (key : String) : Option Json :=
  match j with
  | .obj fields => fields.lookup key
  | _ => none

/-- Rendering used for the `{:?}` debug format in error messages (the
claims only depend on the error's variant, not on this text). -/
def render : Json → String
  | .num n => "Number(" ++ toString n ++ ")"
  | .numNonInt => "Number(_)"
  | .str s => "String(" ++ s ++ ")"
  | .bool b => "Bool(" ++ toString b ++ ")"
  | .null => "Null"
  | .arr _ => "Array(_)"
  | .obj _ => "Object(_)"

end Json

/-- `src/models.rs`: the `Device` struct. -/
structure Device where
  did : String
  dev_alias : Option String
  product_name : String
  mac : String
  is_online : Bool
deriving DecidableEq, Repr

/-- serde deserialization of `Device` from a JSON value: the four non-option
fields are required, `dev_alias` may be absent or `null`. -/
def Device.fromJson (j : Json) : Option Device := do
  let did ← (← j.getField "did").as_str
  let dev_alias ←
    match j.getField "dev_alias" with
    | none => some none
    | some .null => some none
    | some v => v.as_str.map some
  let product_name ← (← j.getField "product_name").as_str
  let mac ← (← j.getField "mac").as_str
  let is_online ← (← j.getField "is_online").as_bool
  return { did, dev_alias, product_name, mac, is_online }

/-- `src/models.rs`: the `AuthResponse` struct. -/
structure AuthResponse where
  token : String
  uid : String
  expire_at : Int
deriving DecidableEq, Repr

/-- serde deserialization of `AuthResponse`. -/
def AuthResponse.fromJson (j : Json) : Option AuthResponse := do
  let token ← (← j.getField "token").as_str
  let uid ← (← j.getField "uid").as_str
  let expire_at ← (← j.getField "expire_at").as_i64
  return { token, uid, expire_at }

/-- `src/models.rs`: the `DevicesResponse` wrapper (`{devices: [...]}`). -/
structure DevicesResponse where
  devices : List Device

/-- serde deserialization of `DevicesResponse`. -/
def DevicesResponse.fromJson (j : Json) : Option DevicesResponse := do
  match j.getField "devices" with
  | some (.arr elems) => do
      let devices ← elems.mapM Device.fromJson
      return { devices }
  | _ => none

/-- `src/models.rs`: `DeviceAttributes` — the `mode` field is kept as a raw
JSON value because it can be a string or a number. -/
structure DeviceAttributes where
  mode : Json

/-- serde deserialization of `DeviceAttributes`. -/
def DeviceAttributes.fromJson (j : Json) : Option DeviceAttributes :=
  (j.getField "mode").map ({ mode := · })

/-- `src/models.rs`: `DeviceDataResponse` (`{attr: {...}}`). -/
structure DeviceDataResponse where
  attr : DeviceAttributes

/-- serde deserialization of `DeviceDataResponse`. -/
def DeviceDataResponse.fromJson (j : Json) : Option DeviceDataResponse := do
  let attrJson ← j.getField "attr"
  let attr ← DeviceAttributes.fromJson attrJson
  return { attr }

/-- Rust `num as i32`: two's-complement truncation of an integer to 32 bits. -/
def toI32 (n : Int) : Int :=
  let m := n % 4294967296
  if m < 2147483648 then m else m - 4294967296

/-- An HTTP request as issued by the client: method, URL, headers, and the
JSON body when there is one. -/
structure Request where
  method : String
  url : String
  headers : List (String × String)
  body : Option Json

/-- An HTTP response: status code, raw body text (what `.text()` returns),
and the body's JSON parse when it is valid JSON (what `.json()` consumes). -/
structure HttpResponse where
  status : Nat
  text : String
  jsonBody : Option Json

/-- `reqwest::StatusCode::is_success`: the 2xx range. -/
def isSuccess (status : Nat) : Bool :=
  200 ≤ status && status ≤ 299

/-- The HTTP transport: `Except.error` models a transport-level failure
(`reqwest::Error`), which the client wraps as `HeatzyError::Network`. -/
def Transport : Type := Request → Except String HttpResponse

/-- `src/client.rs` constants. -/
def BASE_URL : String := "https://euapi.gizwits.com/app"

def APP_ID : String := "c70a66ff039d41b4a220e198b0fcc8b3"

def APP_ID_HEADER : String := "X-Gizwits-Application-Id"

def USER_TOKEN_HEADER : String := "X-Gizwits-User-token"

/-- The default headers installed on the `reqwest` client by `Client::new`. -/
def defaultHeaders : List (String × String) :=
  [(APP_ID_HEADER, APP_ID), ("content-type", "application/json")]

/-- `src/client.rs`: the `Client` struct (the `reqwest` handle is replaced
by the `Transport` parameter passed to each method). -/
structure Client where
  base_url : String
  token : Option String
deriving DecidableEq, Repr

/-- Result of a client method in state-passing form: the post-state (equal
to the pre-state for `&self` methods), the returned value or error, and
the network requests issued during the call. -/
structure MethodResult (α : Type) where
  state : Client
  result : Except HeatzyError α
  requests : List Request

namespace Client

/-- `Client::new` (`src/client.rs` lines 21–37). -/
def new : Client :=
  { base_url := BASE_URL, token := none }

/-- `Client::set_token` (`src/client.rs` lines 77–80). -/
def set_token (c : Client) (token : String) : Client :=
  { c with token := some token }

/-- `Client::ensure_authenticated` (`src/client.rs` lines 205–210). -/
def ensure_authenticated (c : Client) : Except HeatzyError Unit :=
  if c.token.isNone then .error .NoToken else .ok ()

/-- `Client::authenticated_get` (`src/client.rs` lines 213–223). -/
def authenticated_get (c : Client) (t : Transport) (url : String) :
    Except HeatzyError HttpResponse × List Request :=
  match c.token with
  | none => (.error .NoToken, [])
  | some tok =>
    let req : Request :=
      { method := "GET", url := url,
        headers := defaultHeaders ++ [(USER_TOKEN_HEADER, tok)], body := none }
    match t req with
    | .error e => (.error (.Network e), [req])
    | .ok resp => (.ok resp, [req])

/-- `Client::authenticated_post` (`src/client.rs` lines 226–237). -/
def authenticated_post (c : Client) (t : Transport) (url : String) (body : Json) :
    Except HeatzyError HttpResponse × List Request :=
  match c.token with
  | none => (.error .NoToken, [])
  | some tok =>
    let req : Request :=
      { method := "POST", url := url,
        headers := defaultHeaders ++ [(USER_TOKEN_HEADER, tok)], body := some body }
    match t req with
    | .error e => (.error (.Network e), [req])
    | .ok resp => (.ok resp, [req])

/-- `Client::login` (`src/client.rs` lines 40–67): a `&self` method, so the
post-state is the pre-state. -/
def login (c : Client) (t : Transport) (username password : String) :
    MethodResult AuthResponse :=
  let url := c.base_url ++ "/login"
  let req : Request :=
    { method := "POST", url := url, headers := defaultHeaders,
      body := some (.obj [("username", .str username), ("password", .str password)]) }
  match t req with
  | .error e => ⟨c, .error (.Network e), [req]⟩
  | .ok resp =>
    if !isSuccess resp.status then
      ⟨c, .error (.Auth ("Login failed with status " ++ toString resp.status ++ ": " ++ resp.text)),
       [req]⟩
    else
      match resp.jsonBody.bind AuthResponse.fromJson with
      | some auth => ⟨c, .ok auth, [req]⟩
      | none => ⟨c, .error (.Network "error decoding response body"), [req]⟩

/-- `Client::connect` (`src/client.rs` lines 70–74): `login` then `set_token`;
a login error propagates unchanged via `?`. -/
def connect (c : Client) (t : Transport) (username password : String) :
    MethodResult Unit :=
  let r := c.login t username password
  match r.result with
  | .ok auth => ⟨r.state.set_token auth.token, .ok (), r.requests⟩
  | .error e => ⟨r.state, .error e, r.requests⟩

/-- `Client::list_devices` (`src/client.rs` lines 83–104). -/
def list_devices (c : Client) (t : Transport) :
    Except HeatzyError (List Device) × List Request :=
  match c.ensure_authenticated with
  | .error e => (.error e, [])
  | .ok () =>
    let url := c.base_url ++ "/bindings?limit=100&skip=0"
    match c.authenticated_get t url with
    | (.error e, reqs) => (.error e, reqs)
    | (.ok resp, reqs) =>
      if !isSuccess resp.status then
        (.error (.Api ("Failed to list devices with status " ++ toString resp.status ++ ": " ++
          resp.text)), reqs)
      else
        match resp.jsonBody.bind DevicesResponse.fromJson with
        | some dr => (.ok dr.devices, reqs)
        | none => (.error (.Network "error decoding response body"), reqs)

/-- `Client::get_device_by_name` (`src/client.rs` lines 107–115): `list_devices`
then a first-match linear search on `dev_alias`. -/
def get_device_by_name (c : Client) (t : Transport) (name : String) :
    Except HeatzyError Device × List Request :=
  match c.list_devices t with
  | (.error e, reqs) => (.error e, reqs)
  | (.ok devices, reqs) =>
    match devices.find? (fun d => d.dev_alias == some name) with
    | some d => (.ok d, reqs)
    | none => (.error (.NotFound ("Device with name '" ++ name ++ "' not found")), reqs)

/-- `Client::get_device` (`src/client.rs` lines 118–137). -/
def get_device (c : Client) (t : Transport) (device_id : String) :
    Except HeatzyError Device × List Request :=
  match c.ensure_authenticated with
  | .error e => (.error e, [])
  | .ok () =>
    let url := c.base_url ++ "/devices/" ++ device_id
    match c.authenticated_get t url with
    | (.error e, reqs) => (.error e, reqs)
    | (.ok resp, reqs) =>
      if resp.status = 404 then
        (.error (.NotFound ("Device '" ++ device_id ++ "' not found")), reqs)
      else if !isSuccess resp.status then
        (.error (.Api ("Failed to get device with status " ++ toString resp.status ++ ": " ++
          resp.text)), reqs)
      else
        match resp.jsonBody.bind Device.fromJson with
        | some d => (.ok d, reqs)
        | none => (.error (.Network "error decoding response body"), reqs)

/-- The mode-dispatch step of `Client::get_device_mode` (`src/client.rs`
lines 162–169): try `as_i64` (then `from_int` on the `as i32` truncation),
then `as_str` (then `from_str_api`), else a descriptive `Api` error. -/
def decodeModeValue (v : Json) : Except HeatzyError DeviceMode :=
  match v.as_i64 with
  | some num => DeviceMode.from_int (toI32 num)
  | none =>
    match v.as_str with
    | some s => DeviceMode.from_str_api s
    | none => .error (.Api ("Invalid mode value: " ++ v.render))

/-- `Client::get_device_mode` (`src/client.rs` lines 140–173). -/
def get_device_mode (c : Client) (t : Transport) (device_id : String) :
    Except HeatzyError DeviceMode × List Request :=
  match c.ensure_authenticated with
  | .error e => (.error e, [])
  | .ok () =>
    let url := c.base_url ++ "/devdata/" ++ device_id ++ "/latest"
    match c.authenticated_get t url with
    | (.error e, reqs) => (.error e, reqs)
    | (.ok resp, reqs) =>
      if resp.status = 404 then
        (.error (.NotFound ("Device '" ++ device_id ++ "' not found")), reqs)
      else if !isSuccess resp.status then
        (.error (.Api ("Failed to get device data with status " ++ toString resp.status ++ ": " ++
          resp.text)), reqs)
      else
        match resp.jsonBody.bind DeviceDataResponse.fromJson with
        | some dd => (decodeModeValue dd.attr.mode, reqs)
        | none => (.error (.Network "error decoding response body"), reqs)

/-- `Client::set_device_mode` (`src/client.rs` lines 176–202). -/
def set_device_mode (c : Client) (t : Transport) (device_id : String) (mode : DeviceMode) :
    Except HeatzyError Unit × List Request :=
  match c.ensure_authenticated with
  | .error e => (.error e, [])
  | .ok () =>
    let url := c.base_url ++ "/control/" ++ device_id
    let body : Json := .obj [("attrs", .obj [("mode", .num mode.to_int)])]
    match c.authenticated_post t url body with
    | (.error e, reqs) => (.error e, reqs)
    | (.ok resp, reqs) =>
      if resp.status = 404 then
        (.error (.NotFound ("Device '" ++ device_id ++ "' not found")), reqs)
      else if !isSuccess resp.status then
        (.error (.Api ("Failed to control device with status " ++ toString resp.status ++ ": " ++
          resp.text)), reqs)
      else
        (.ok (), reqs)

end Client

/-- `sub` occurs as a contiguous substring of `s`. -/
def strContains (s sub : String) : Prop :=
  ∃ l r : String, l ++ sub ++ r = s

/-! Concrete fixtures used to instantiate the theorems below. -/

/-- A client with a token installed, as after `connect`. -/
def authedClient : Client :=
  Client.new.set_token "abc"

/-- Fixture device "Kitchen". -/
def kitchenDevice : Device :=
  { did := "d1", dev_alias := some "Kitchen", product_name := "Pilote", mac := "m1",
    is_online := true }

/-- Fixture device "Bath". -/
def bathDevice : Device :=
  { did := "d2", dev_alias := some "Bath", product_name := "Pilote", mac := "m2",
    is_online := false }

/-- JSON form of `kitchenDevice`. -/
def kitchenJson : Json :=
  .obj [("did", .str "d1"), ("dev_alias", .str "Kitchen"), ("product_name", .str "Pilote"),
        ("mac", .str "m1"), ("is_online", .bool true)]

/-- JSON form of `bathDevice`. -/
def bathJson : Json :=
  .obj [("did", .str "d2"), ("dev_alias", .str "Bath"), ("product_name", .str "Pilote"),
        ("mac", .str "m2"), ("is_online", .bool false)]

/-- A 200 listing response holding `[kitchenDevice, bathDevice]`. -/
def listingResponse : HttpResponse :=
  { status := 200, text := "", jsonBody := some (.obj [("devices", .arr [kitchenJson, bathJson])]) }

/-- A transport that answers every request with `listingResponse`. -/
def listingTransport : Transport :=
  fun _ => .ok listingResponse

/-- A 200 login response `{"token":"abc","uid":"u1","expire_at":123}`. -/
def loginResponse : HttpResponse :=
  { status := 200, text := "",
    jsonBody := some (.obj [("token", .str "abc"), ("uid", .str "u1"), ("expire_at", .num 123)]) }

/-- A transport that answers every request with `loginResponse`. -/
def loginTransport : Transport :=
  fun _ => .ok loginResponse

/-- A 200 telemetry response whose `attr.mode` field is `v`. -/
def modeResponse (v : Json) : HttpResponse :=
  { status := 200, text := "", jsonBody := some (.obj [("attr", .obj [("mode", v)])]) }

/-- A plain response with a given status and body text and no JSON body. -/
def statusResponse (status : Nat) (text : String) : HttpResponse :=
  { status, text, jsonBody := none }

/-- The CLI strings the source's `from_cli_str` match accepts for each mode
(`src/models.rs` lines 88–93), used to characterize acceptance. -/
def cliStringsFor : DeviceMode → List String
  | .Comfort => ["comfort"]
  | .Eco => ["eco"]
  | .FrostProtection => ["frost-protection", "frost"]
  | .Stop => ["stop"]
  | .ComfortMinus1 => ["comfort-1", "comfort-minus-1"]
  | .ComfortMinus2 => ["comfort-2", "comfort-minus-2"]

end Heatzy

namespace Heatzy

theorem toNat_lowerChar_of_upper {c : Char} (h : 65 ≤ c.toNat ∧ c.toNat ≤ 90) :
    (lowerChar c).toNat = c.toNat + 32 := by
  have hv : (c.toNat + 32).isValidChar := Or.inl (by omega)
  unfold lowerChar
  rw [if_pos h]
  unfold Char.ofNat
  rw [dif_pos hv]
  rfl

theorem lowerChar_eq_self {c : Char} (h : ¬(65 ≤ c.toNat ∧ c.toNat ≤ 90)) :
    lowerChar c = c := by
  unfold lowerChar
  rw [if_neg h]

theorem lowerChar_idem (c : Char) : lowerChar (lowerChar c) = lowerChar c := by
  by_cases h : 65 ≤ c.toNat ∧ c.toNat ≤ 90
  · apply lowerChar_eq_self
    rw [toNat_lowerChar_of_upper h]
    omega
  · simp only [lowerChar_eq_self h]

theorem toLowercase_idem (s : String) : toLowercase (toLowercase s) = toLowercase s := by
  unfold toLowercase
  simp only [List.map_map]
  congr 1
  exact List.map_congr_left fun c _ => lowerChar_idem c

theorem from_cli_str_ok_iff (value : String) (m : DeviceMode) :
    DeviceMode.from_cli_str value = .ok m ↔ toLowercase value ∈ cliStringsFor m := by
  unfold DeviceMode.from_cli_str
  split <;> cases m <;> simp_all +decide [cliStringsFor]

/-- C1: for every one of the six `DeviceMode` variants `m`, decoding the
encoding is the identity in all three representations:
`from_int (to_int m) = ok m`, `from_str_api (to_str_api m) = ok m`, and
`from_cli_str (to_cli_str m) = ok m`. -/
theorem mode_roundtrip (m : DeviceMode) :
    DeviceMode.from_int m.to_int = .ok m ∧
    DeviceMode.from_str_api m.to_str_api = .ok m ∧
    DeviceMode.from_cli_str m.to_cli_str = .ok m := by
  cases m <;> refine ⟨?_, ?_, ?_⟩ <;> decide

/-- C2: each decoder rejects every input outside its closed set with an
`InvalidMode` error: `from_int` fails for every integer not in `{0,…,5}`,
`from_str_api` for every string outside `{cft,eco,fro,stop,cft1,cft2}`, and
`from_cli_str` for every string whose lowercasing is not an accepted name
or alias. -/
theorem mode_decoders_reject :
    (∀ n : Int, n ∉ ([0, 1, 2, 3, 4, 5] : List Int) →
      DeviceMode.from_int n = .error (.InvalidMode ("Invalid mode number: " ++ toString n))) ∧
    (∀ s : String, s ∉ (["cft", "eco", "fro", "stop", "cft1", "cft2"] : List String) →
      DeviceMode.from_str_api s = .error (.InvalidMode ("Invalid mode string: " ++ s))) ∧
    (∀ s : String,
      toLowercase s ∉ (["comfort", "eco", "frost-protection", "frost", "stop",
        "comfort-1", "comfort-minus-1", "comfort-2", "comfort-minus-2"] : List String) →
      DeviceMode.from_cli_str s = .error (.InvalidMode ("Invalid mode: " ++ s ++
        ". Valid modes are: comfort, eco, frost-protection, stop, comfort-1, comfort-2"))) := by
  refine ⟨fun n h => ?_, fun s h => ?_, fun s h => ?_⟩
  · unfold DeviceMode.from_int
    split <;> simp_all
  · unfold DeviceMode.from_str_api
    split <;> simp_all
  · unfold DeviceMode.from_cli_str
    split <;> simp_all

/-- C2 witness: the decoders reject `6`, `-1`, `"bogus"` and `"warm"` with
`InvalidMode`. -/
theorem mode_decoders_reject_witness :
    DeviceMode.from_int 6 = .error (.InvalidMode "Invalid mode number: 6") ∧
    DeviceMode.from_int (-1) = .error (.InvalidMode "Invalid mode number: -1") ∧
    DeviceMode.from_str_api "bogus" = .error (.InvalidMode "Invalid mode string: bogus") ∧
    DeviceMode.from_cli_str "warm" = .error (.InvalidMode
      "Invalid mode: warm. Valid modes are: comfort, eco, frost-protection, stop, comfort-1, comfort-2") :=
  ⟨mode_decoders_reject.1 6 (by decide), mode_decoders_reject.1 (-1) (by decide),
   mode_decoders_reject.2.1 "bogus" (by decide), mode_decoders_reject.2.2 "warm" (by decide)⟩

/-- C8 counterexample: `from_cli_str` applied to the invalid mixed-case
string `"WARM"` is not equal to `from_cli_str` of its lowercasing, because
the `InvalidMode` message embeds the original (uppercase) input. -/
theorem from_cli_str_lowercase_counterexample :
    DeviceMode.from_cli_str "WARM" = .error (.InvalidMode
      "Invalid mode: WARM. Valid modes are: comfort, eco, frost-protection, stop, comfort-1, comfort-2") ∧
    DeviceMode.from_cli_str (toLowercase "WARM") = .error (.InvalidMode
      "Invalid mode: warm. Valid modes are: comfort, eco, frost-protection, stop, comfort-1, comfort-2") ∧
    DeviceMode.from_cli_str "WARM" ≠ DeviceMode.from_cli_str (toLowercase "WARM") := by
  refine ⟨by decide, by decide, by decide⟩

/-- C8 (amended): `from_cli_str` is case-insensitive in its acceptance
behaviour — `from_cli_str s` succeeds with mode `m` exactly when
`from_cli_str (lowercase s)` does (the two results can differ only in the
text of the `InvalidMode` message, which embeds the original input) — and
both alias forms of the aliased modes are accepted. -/
theorem from_cli_str_case_insensitive :
    (∀ (s : String) (m : DeviceMode),
      DeviceMode.from_cli_str s = .ok m ↔ DeviceMode.from_cli_str (toLowercase s) = .ok m) ∧
    DeviceMode.from_cli_str "FROST" = .ok .FrostProtection ∧
    DeviceMode.from_cli_str "frost-protection" = .ok .FrostProtection ∧
    DeviceMode.from_cli_str "comfort-minus-1" = .ok .ComfortMinus1 ∧
    DeviceMode.from_cli_str "comfort-1" = .ok .ComfortMinus1 ∧
    DeviceMode.from_cli_str "comfort-minus-2" = .ok .ComfortMinus2 ∧
    DeviceMode.from_cli_str "comfort-2" = .ok .ComfortMinus2 := by
  refine ⟨fun s m => ?_, by decide, by decide, by decide, by decide, by decide, by decide⟩
  rw [from_cli_str_ok_iff, from_cli_str_ok_iff, toLowercase_idem]

/-- C9: `login` never mutates the client's state: for every prior state,
transport and credentials, after `login` returns (success or error) the
client's `token` and `base_url` fields are unchanged. -/
theorem login_no_mutation (c : Client) (t : Transport) (username password : String) :
    (c.login t username password).state.token = c.token ∧
    (c.login t username password).state.base_url = c.base_url := by
  suffices h : (c.login t username password).state = c by rw [h]; exact ⟨rfl, rfl⟩
  unfold Client.login
  dsimp only
  split
  · rfl
  · split
    · rfl
    · split <;> rfl

/-- C7: `connect` behaves exactly as `login` followed by `set_token`: when
`login` succeeds with `a`, `connect` leaves the client's token equal to
`some a.token` and returns `ok ()`; when `login` fails, `connect` returns
the very same error. -/
theorem connect_spec (c : Client) (t : Transport) (username password : String) :
    (∀ a, (c.login t username password).result = .ok a →
      (c.connect t username password).state.token = some a.token ∧
      (c.connect t username password).result = .ok ()) ∧
    (∀ e, (c.login t username password).result = .error e →
      (c.connect t username password).result = .error e) := by
  unfold Client.connect
  constructor
  · intro a ha
    simp [ha, Client.set_token]
  · intro e he
    simp only [he]

/-- C7 witness: against a transport answering
`{"token":"abc","uid":"u1","expire_at":123}` with status 200, `connect`
installs token `"abc"` and returns `ok ()`. -/
theorem connect_spec_witness :
    (Client.new.connect loginTransport "u" "p").state.token = some "abc" ∧
    (Client.new.connect loginTransport "u" "p").result = .ok () :=
  (connect_spec Client.new loginTransport "u" "p").1
    { token := "abc", uid := "u1", expire_at := 123 } (by decide)

/-- C4: for every client whose token is `none`, each of `list_devices`,
`get_device`, `get_device_mode`, `set_device_mode` and `get_device_by_name`
fails immediately with `NoToken` and issues zero network requests. -/
theorem no_token_no_network (c : Client) (t : Transport) (device_id name : String)
    (mode : DeviceMode) (h : c.token = none) :
    c.list_devices t = (.error .NoToken, []) ∧
    c.get_device t device_id = (.error .NoToken, []) ∧
    c.get_device_mode t device_id = (.error .NoToken, []) ∧
    c.set_device_mode t device_id mode = (.error .NoToken, []) ∧
    c.get_device_by_name t name = (.error .NoToken, []) := by
  have he : c.ensure_authenticated = .error .NoToken := by
    unfold Client.ensure_authenticated
    rw [h]
    rfl
  have hl : c.list_devices t = (.error .NoToken, []) := by
    unfold Client.list_devices
    rw [he]
  refine ⟨hl, ?_, ?_, ?_, ?_⟩
  · unfold Client.get_device
    rw [he]
  · unfold Client.get_device_mode
    rw [he]
  · unfold Client.set_device_mode
    rw [he]
  · unfold Client.get_device_by_name
    rw [hl]

/-- C4 witness: the freshly constructed client (token `none`) fails all five
operations with `NoToken` and an empty request log, even against a live
transport. -/
theorem no_token_no_network_witness :
    Client.new.list_devices listingTransport = (.error .NoToken, []) ∧
    Client.new.get_device listingTransport "d1" = (.error .NoToken, []) ∧
    Client.new.get_device_mode listingTransport "d1" = (.error .NoToken, []) ∧
    Client.new.set_device_mode listingTransport "d1" .Eco = (.error .NoToken, []) ∧
    Client.new.get_device_by_name listingTransport "Bath" = (.error .NoToken, []) :=
  no_token_no_network Client.new listingTransport "d1" "Bath" .Eco rfl

theorem from_int_isOk_iff (k : Int) :
    (∃ m, DeviceMode.from_int k = .ok m) ↔ k ∈ ([0, 1, 2, 3, 4, 5] : List Int) := by
  unfold DeviceMode.from_int
  split <;> simp_all

theorem from_int_reject {k : Int} (h : k ∉ ([0, 1, 2, 3, 4, 5] : List Int)) :
    DeviceMode.from_int k = .error (.InvalidMode ("Invalid mode number: " ++ toString k)) := by
  unfold DeviceMode.from_int
  split <;> simp_all

/-- C5: `set_device_mode` POSTs the payload `{attrs: {mode: to_int mode}}` to
the control endpoint and maps the response status: 404 yields `NotFound`, any
other non-2xx status yields an `Api` error whose text contains the status,
and any 2xx status yields `ok ()` without parsing the response body. -/
theorem set_device_mode_spec (c : Client) (tok device_id : String) (mode : DeviceMode)
    (resp : HttpResponse) (h : c.token = some tok) :
    (c.set_device_mode (fun _ => .ok resp) device_id mode).2 =
      [{ method := "POST", url := c.base_url ++ "/control/" ++ device_id,
         headers := defaultHeaders ++ [(USER_TOKEN_HEADER, tok)],
         body := some (.obj [("attrs", .obj [("mode", .num mode.to_int)])]) }] ∧
    (resp.status = 404 →
      (c.set_device_mode (fun _ => .ok resp) device_id mode).1 =
        .error (.NotFound ("Device '" ++ device_id ++ "' not found"))) ∧
    (resp.status ≠ 404 → isSuccess resp.status = false →
      (c.set_device_mode (fun _ => .ok resp) device_id mode).1 =
        .error (.Api ("Failed to control device with status " ++ toString resp.status ++ ": " ++
          resp.text)) ∧
      strContains ("Failed to control device with status " ++ toString resp.status ++ ": " ++
        resp.text) (toString resp.status)) ∧
    (isSuccess resp.status = true →
      (c.set_device_mode (fun _ => .ok resp) device_id mode).1 = .ok ()) := by
  have hcall : c.set_device_mode (fun _ => .ok resp) device_id mode =
      (if resp.status = 404 then
        (.error (.NotFound ("Device '" ++ device_id ++ "' not found")),
          [{ method := "POST", url := c.base_url ++ "/control/" ++ device_id,
             headers := defaultHeaders ++ [(USER_TOKEN_HEADER, tok)],
             body := some (.obj [("attrs", .obj [("mode", .num mode.to_int)])]) }])
      else if !isSuccess resp.status then
        (.error (.Api ("Failed to control device with status " ++ toString resp.status ++ ": " ++
          resp.text)),
          [{ method := "POST", url := c.base_url ++ "/control/" ++ device_id,
             headers := defaultHeaders ++ [(USER_TOKEN_HEADER, tok)],
             body := some (.obj [("attrs", .obj [("mode", .num mode.to_int)])]) }])
      else
        (.ok (),
          [{ method := "POST", url := c.base_url ++ "/control/" ++ device_id,
             headers := defaultHeaders ++ [(USER_TOKEN_HEADER, tok)],
             body := some (.obj [("attrs", .obj [("mode", .num mode.to_int)])]) }])) := by
    unfold Client.set_device_mode Client.ensure_authenticated Client.authenticated_post
    rw [h]
    rfl
  refine ⟨?_, fun h404 => ?_, fun hn404 hns => ?_, fun hs => ?_⟩
  · rw [hcall]
    split
    · rfl
    · split
      · rfl
      · rfl
  · rw [hcall, if_pos h404]
  · rw [hcall, if_neg hn404, hns]
    exact ⟨rfl, "Failed to control device with status ", ": " ++ resp.text,
      (String.append_assoc _ ": " resp.text).symm⟩
  · have h404 : resp.status ≠ 404 := by
      unfold isSuccess at hs
      simp at hs
      omega
    rw [hcall, if_neg h404, hs]
    rfl

/-- C5 witness: with a token installed, a 404 control response yields
`NotFound`, a 500 response yields an `Api` error containing "500", and a
200 response yields `ok ()`. -/
theorem set_device_mode_spec_witness :
    (authedClient.set_device_mode (fun _ => .ok (statusResponse 404 "gone")) "d1" .Eco).1 =
      .error (.NotFound "Device 'd1' not found") ∧
    ((authedClient.set_device_mode (fun _ => .ok (statusResponse 500 "boom")) "d1" .Eco).1 =
      .error (.Api "Failed to control device with status 500: boom") ∧
      strContains "Failed to control device with status 500: boom" "500") ∧
    (authedClient.set_device_mode (fun _ => .ok (statusResponse 200 "")) "d1" .Eco).1 = .ok () :=
  ⟨(set_device_mode_spec authedClient "abc" "d1" .Eco (statusResponse 404 "gone") rfl).2.1 rfl,
   (set_device_mode_spec authedClient "abc" "d1" .Eco (statusResponse 500 "boom") rfl).2.2.1
     (by decide) (by decide),
   (set_device_mode_spec authedClient "abc" "d1" .Eco (statusResponse 200 "") rfl).2.2.2
     (by decide)⟩

theorem find?_eq_some_split {α : Type} (p : α → Bool) :
    ∀ (l : List α) (a : α), l.find? p = some a →
      ∃ l1 l2, l = l1 ++ a :: l2 ∧ p a = true ∧ ∀ x ∈ l1, p x = false := by
  intro l
  induction l with
  | nil =>
    intro a h
    simp at h
  | cons x xs ih =>
    intro a h
    by_cases hx : p x = true
    · rw [List.find?_cons_of_pos _ hx] at h
      obtain rfl : x = a := Option.some.inj h
      exact ⟨[], xs, rfl, hx, by simp⟩
    · rw [List.find?_cons_of_neg _ (by simpa using hx)] at h
      obtain ⟨l1, l2, rfl, hpa, hall⟩ := ih a h
      refine ⟨x :: l1, l2, rfl, hpa, ?_⟩
      intro y hy
      rcases List.mem_cons.mp hy with rfl | hy'
      · exact Bool.eq_false_iff.mpr hx
      · exact hall y hy'

theorem find?_append_cons {α : Type} (p : α → Bool) (l1 : List α) (d : α) (l2 : List α)
    (hd : p d = true) (hl1 : ∀ x ∈ l1, p x = false) :
    (l1 ++ d :: l2).find? p = some d := by
  induction l1 with
  | nil =>
    simpa using List.find?_cons_of_pos l2 hd
  | cons x xs ih =>
    have hx : p x = false := hl1 x (by simp)
    rw [List.cons_append, List.find?_cons_of_neg _ (by simp [hx])]
    exact ih fun y hy => hl1 y (by simp [hy])

/-- C6: when `list_devices` returns listing `ds`, `get_device_by_name name`
returns the first device of `ds` (in listing order) whose `dev_alias`
exactly equals `name`: whenever `ds` decomposes as a prefix with no matching
alias followed by a matching device `d`, the call succeeds with exactly that
`d`; conversely every success is such a first match; and when no alias
matches, the call fails with a `NotFound` error whose message contains the
queried name. -/
theorem get_device_by_name_spec (c : Client) (t : Transport) (name : String)
    (ds : List Device) (h : (c.list_devices t).1 = .ok ds) :
    (∀ l1 d l2, ds = l1 ++ d :: l2 → d.dev_alias = some name →
      (∀ e ∈ l1, e.dev_alias ≠ some name) →
      (c.get_device_by_name t name).1 = .ok d) ∧
    (∀ d, (c.get_device_by_name t name).1 = .ok d →
      ∃ l1 l2, ds = l1 ++ d :: l2 ∧ d.dev_alias = some name ∧
        ∀ e ∈ l1, e.dev_alias ≠ some name) ∧
    ((∀ d ∈ ds, d.dev_alias ≠ some name) →
      (c.get_device_by_name t name).1 =
        .error (.NotFound ("Device with name '" ++ name ++ "' not found")) ∧
      strContains ("Device with name '" ++ name ++ "' not found") name) := by
  have hpair : c.list_devices t = (.ok ds, (c.list_devices t).2) := by
    rw [← h]
  refine ⟨?_, ?_, ?_⟩
  · intro l1 d l2 hds hd hl1
    unfold Client.get_device_by_name
    rw [hpair]
    dsimp only
    rw [hds, find?_append_cons _ l1 d l2 (by simpa using hd)
      (fun x hx => by simpa using hl1 x hx)]
  · intro d hd
    unfold Client.get_device_by_name at hd
    rw [hpair] at hd
    dsimp only at hd
    cases hfind : ds.find? (fun d => d.dev_alias == some name) with
    | none =>
      rw [hfind] at hd
      simp at hd
    | some d' =>
      rw [hfind] at hd
      obtain rfl : d' = d := by simpa using hd
      obtain ⟨l1, l2, rfl, hpa, hall⟩ := find?_eq_some_split _ _ _ hfind
      refine ⟨l1, l2, rfl, by simpa using hpa, ?_⟩
      intro e he
      simpa using hall e he
  · intro hall
    unfold Client.get_device_by_name
    rw [hpair]
    dsimp only
    have hfind : ds.find? (fun d => d.dev_alias == some name) = none := by
      rw [List.find?_eq_none]
      intro x hx
      simpa using hall x hx
    rw [hfind]
    exact ⟨rfl, "Device with name '", "' not found", rfl⟩

/-- C6 witness: on the listing `[Kitchen, Bath]` the query `"Bath"` returns
the second device (`bathDevice`, after the non-matching prefix
`[kitchenDevice]`), and the query `"Garage"` fails with a `NotFound` error
mentioning "Garage". -/
theorem get_device_by_name_spec_witness :
    (authedClient.get_device_by_name listingTransport "Bath").1 = .ok bathDevice ∧
    (authedClient.get_device_by_name listingTransport "Garage").1 =
      .error (.NotFound "Device with name 'Garage' not found") :=
  ⟨(get_device_by_name_spec authedClient listingTransport "Bath" [kitchenDevice, bathDevice]
      (by decide)).1 [kitchenDevice] bathDevice [] rfl rfl (by decide),
   ((get_device_by_name_spec authedClient listingTransport "Garage" [kitchenDevice, bathDevice]
      (by decide)).2.2 (by decide)).1⟩

/-- C10: whenever `get_device_by_name name` succeeds with device `d`, then
`d.dev_alias = some name`; a device with no alias is never returned. -/
theorem get_device_by_name_alias (c : Client) (t : Transport) (name : String) (d : Device)
    (h : (c.get_device_by_name t name).1 = .ok d) :
    d.dev_alias = some name := by
  unfold Client.get_device_by_name at h
  rcases hp : c.list_devices t with ⟨res, reqs⟩
  rw [hp] at h
  cases res with
  | error e => simp at h
  | ok ds =>
    dsimp only at h
    cases hfind : ds.find? (fun d => d.dev_alias == some name) with
    | none =>
      rw [hfind] at h
      simp at h
    | some d' =>
      rw [hfind] at h
      obtain rfl : d' = d := by simpa using h
      simpa using List.find?_some hfind

/-- C10 witness: querying `"Bath"` on the fixture listing returns a device
whose alias is `some "Bath"`. -/
theorem get_device_by_name_alias_witness :
    bathDevice.dev_alias = some "Bath" :=
  get_device_by_name_alias authedClient listingTransport "Bath" bathDevice (by decide)

/-- C3 counterexample: a 2xx telemetry response whose `mode` field is the
JSON number 4294967296 = 2^32 — a number outside `{0,…,5}` — does not fail
with `InvalidMode` as the claim requires: the `as i32` cast truncates it to
0 and `get_device_mode` succeeds with `Comfort`. -/
theorem get_device_mode_wraparound_counterexample :
    (4294967296 : Int) ∉ ([0, 1, 2, 3, 4, 5] : List Int) ∧
    isSuccess (modeResponse (.num 4294967296)).status = true ∧
    (authedClient.get_device_mode (fun _ => .ok (modeResponse (.num 4294967296))) "d1").1 =
      .ok .Comfort :=
  ⟨by decide, by decide, by decide⟩

/-- C3 (amended): after a 2xx telemetry response, the `mode` field is
dispatched on its runtime JSON kind: a JSON number with an `i64` reading `n`
is truncated to `i32` two's-complement and decoded by `from_int` — the call
succeeds exactly when the truncation lies in `{0,…,5}` (so numbers ≥ 2^32
can wrap into range) and fails with `InvalidMode` otherwise; a JSON string
is decoded by the API-string decoder; a value that is neither (boolean,
null, non-`i64` number, …) fails with a descriptive `Api` error. -/
theorem get_device_mode_dispatch (c : Client) (tok device_id : String) (resp : HttpResponse)
    (v : Json) (htok : c.token = some tok) (hst : isSuccess resp.status = true)
    (hbody : resp.jsonBody = some (.obj [("attr", .obj [("mode", v)])])) :
    (∀ n : Int, v = .num n → -(2 ^ 63) ≤ n → n < 2 ^ 63 →
      (c.get_device_mode (fun _ => .ok resp) device_id).1 = DeviceMode.from_int (toI32 n)) ∧
    (∀ n : Int, v = .num n → -(2 ^ 63) ≤ n → n < 2 ^ 63 →
      ((∃ m, (c.get_device_mode (fun _ => .ok resp) device_id).1 = .ok m) ↔
        toI32 n ∈ ([0, 1, 2, 3, 4, 5] : List Int))) ∧
    (∀ n : Int, v = .num n → -(2 ^ 63) ≤ n → n < 2 ^ 63 →
      toI32 n ∉ ([0, 1, 2, 3, 4, 5] : List Int) →
      (c.get_device_mode (fun _ => .ok resp) device_id).1 =
        .error (.InvalidMode ("Invalid mode number: " ++ toString (toI32 n)))) ∧
    (∀ s : String, v = .str s →
      (c.get_device_mode (fun _ => .ok resp) device_id).1 = DeviceMode.from_str_api s) ∧
    (v.as_i64 = none → v.as_str = none →
      (c.get_device_mode (fun _ => .ok resp) device_id).1 =
        .error (.Api ("Invalid mode value: " ++ v.render))) := by
  have h404 : resp.status ≠ 404 := by
    unfold isSuccess at hst
    simp at hst
    omega
  have hcall : c.get_device_mode (fun _ => .ok resp) device_id =
      (if resp.status = 404 then
        (.error (.NotFound ("Device '" ++ device_id ++ "' not found")),
          [{ method := "GET", url := c.base_url ++ "/devdata/" ++ device_id ++ "/latest",
             headers := defaultHeaders ++ [(USER_TOKEN_HEADER, tok)], body := none }])
      else if !isSuccess resp.status then
        (.error (.Api ("Failed to get device data with status " ++ toString resp.status ++ ": " ++
          resp.text)),
          [{ method := "GET", url := c.base_url ++ "/devdata/" ++ device_id ++ "/latest",
             headers := defaultHeaders ++ [(USER_TOKEN_HEADER, tok)], body := none }])
      else
        (Client.decodeModeValue v,
          [{ method := "GET", url := c.base_url ++ "/devdata/" ++ device_id ++ "/latest",
             headers := defaultHeaders ++ [(USER_TOKEN_HEADER, tok)], body := none }])) := by
    unfold Client.get_device_mode Client.ensure_authenticated Client.authenticated_get
    rw [htok]
    dsimp only
    rw [hbody]
    rfl
  have hred : (c.get_device_mode (fun _ => .ok resp) device_id).1 = Client.decodeModeValue v := by
    rw [hcall, if_neg h404, hst]
    rfl
  refine ⟨fun n hv hlo hhi => ?_, fun n hv hlo hhi => ?_, fun n hv hlo hhi hout => ?_,
    fun s hv => ?_, fun hnum hstr => ?_⟩
  · rw [hred, hv]
    unfold Client.decodeModeValue Json.as_i64
    dsimp only
    rw [if_pos ⟨hlo, hhi⟩]
  · rw [hred, hv]
    unfold Client.decodeModeValue Json.as_i64
    dsimp only
    rw [if_pos ⟨hlo, hhi⟩]
    exact from_int_isOk_iff (toI32 n)
  · rw [hred, hv]
    unfold Client.decodeModeValue Json.as_i64
    dsimp only
    rw [if_pos ⟨hlo, hhi⟩]
    exact from_int_reject hout
  · rw [hred, hv]
    rfl
  · rw [hred]
    unfold Client.decodeModeValue
    rw [hnum, hstr]

/-- C3 witness: mode arriving as JSON number 1 decodes to Eco, as JSON
string `"eco"` also to Eco, and as JSON boolean fails with a descriptive
`Api` error. -/
theorem get_device_mode_dispatch_witness :
    (authedClient.get_device_mode (fun _ => .ok (modeResponse (.num 1))) "d1").1 = .ok .Eco ∧
    (authedClient.get_device_mode (fun _ => .ok (modeResponse (.str "eco"))) "d1").1 =
      .ok .Eco ∧
    (authedClient.get_device_mode (fun _ => .ok (modeResponse (.bool true))) "d1").1 =
      .error (.Api "Invalid mode value: Bool(true)") :=
  ⟨(get_device_mode_dispatch authedClient "abc" "d1" (modeResponse (.num 1)) (.num 1)
      rfl (by decide) rfl).1 1 rfl (by decide) (by decide),
   (get_device_mode_dispatch authedClient "abc" "d1" (modeResponse (.str "eco")) (.str "eco")
      rfl (by decide) rfl).2.2.2.1 "eco" rfl,
   (get_device_mode_dispatch authedClient "abc" "d1" (modeResponse (.bool true)) (.bool true)
      rfl (by decide) rfl).2.2.2.2 rfl rfl⟩

end Heatzy

